import Mathlib

/-!
Shallow embedding of the deterministic fallback-report pipeline of
`openAI_anthropic_gemini_robotFramework_testcasesGeneration.py`
(functions `extract_ui_elements`, `extract_network_requests`,
`extract_local_storage`, `generate_local_test_case`).

Conventions of the embedding:
* Python values loaded from JSON are modelled by the inductive type `Json`.
  A Python `dict` is an association list in insertion order (JSON objects
  have unique keys); floats do not occur in any input of interest, so JSON
  numbers are modelled as integers.
* Python string operations work on code points; a string is handled through
  its list of `Char`s, which matches.  `lower`/`upper` are ASCII-only in
  the model (all keys and markers of interest are ASCII), and `repr`
  escaping of quotes inside nested strings is not modelled (never
  exercised by anything proved here).
* Code that can raise is modelled in `Except String`; the carried string
  abstracts the Python exception message.  Its exact text is irrelevant to
  every property below, so the model uses short fixed messages.
* `generate_local_test_case` loads two JSON files via `load_json`, which
  returns `None` on failure; the two loaded values are passed here as
  `Option Json` parameters.  HTML parsing of `InspectElementHTML` strings
  is done by the external BeautifulSoup library; the parser is passed as a
  function argument producing the parsed node list in document order (the
  ImportError fallback of the Python code, which returns `[]`, is not
  modelled: the parser argument is always available).
* Python `for`-loops that append to a result list are embedded as
  structural recursions that produce the same list in the same order.
* The report string is assembled line by line: each Python
  `report += "...\n"` contributes entries to a `List String` of lines, and
  the final string is the concatenation of every line followed by `"\n"`
  (a `"...\n\n"` append contributes the line and an empty line).
-/

set_option maxRecDepth 10000

namespace TestGen

/-- JSON-shaped Python values (`json.load` output). -/
inductive Json where
  | null : Json
  | bool : Bool → Json
  | num : Int → Json
  | str : String → Json
  | arr : List Json → Json
  | obj : List (String × Json) → Json
deriving Repr

mutual

def Json.decEq : (a b : Json) → Decidable (a = b)
  | .null, .null => isTrue rfl
  | .null, .bool _ => isFalse Json.noConfusion
  | .null, .num _ => isFalse Json.noConfusion
  | .null, .str _ => isFalse Json.noConfusion
  | .null, .arr _ => isFalse Json.noConfusion
  | .null, .obj _ => isFalse Json.noConfusion
  | .bool _, .null => isFalse Json.noConfusion
  | .bool a, .bool b =>
      if h : a = b then isTrue (h ▸ rfl)
      else isFalse (fun hh => h (Json.bool.inj hh))
  | .bool _, .num _ => isFalse Json.noConfusion
  | .bool _, .str _ => isFalse Json.noConfusion
  | .bool _, .arr _ => isFalse Json.noConfusion
  | .bool _, .obj _ => isFalse Json.noConfusion
  | .num _, .null => isFalse Json.noConfusion
  | .num _, .bool _ => isFalse Json.noConfusion
  | .num a, .num b =>
      if h : a = b then isTrue (h ▸ rfl)
      else isFalse (fun hh => h (Json.num.inj hh))
  | .num _, .str _ => isFalse Json.noConfusion
  | .num _, .arr _ => isFalse Json.noConfusion
  | .num _, .obj _ => isFalse Json.noConfusion
  | .str _, .null => isFalse Json.noConfusion
  | .str _, .bool _ => isFalse Json.noConfusion
  | .str _, .num _ => isFalse Json.noConfusion
  | .str a, .str b =>
      if h : a = b then isTrue (h ▸ rfl)
      else isFalse (fun hh => h (Json.str.inj hh))
  | .str _, .arr _ => isFalse Json.noConfusion
  | .str _, .obj _ => isFalse Json.noConfusion
  | .arr _, .null => isFalse Json.noConfusion
  | .arr _, .bool _ => isFalse Json.noConfusion
  | .arr _, .num _ => isFalse Json.noConfusion
  | .arr _, .str _ => isFalse Json.noConfusion
  | .arr a, .arr b =>
      match Json.decEqList a b with
      | isTrue h => isTrue (h ▸ rfl)
      | isFalse h => isFalse (fun hh => h (Json.arr.inj hh))
  | .arr _, .obj _ => isFalse Json.noConfusion
  | .obj _, .null => isFalse Json.noConfusion
  | .obj _, .bool _ => isFalse Json.noConfusion
  | .obj _, .num _ => isFalse Json.noConfusion
  | .obj _, .str _ => isFalse Json.noConfusion
  | .obj _, .arr _ => isFalse Json.noConfusion
  | .obj a, .obj b =>
      match Json.decEqObj a b with
      | isTrue h => isTrue (h ▸ rfl)
      | isFalse h => isFalse (fun hh => h (Json.obj.inj hh))

def Json.decEqList : (a b : List Json) → Decidable (a = b)
  | [], [] => isTrue rfl
  | [], _ :: _ => isFalse List.noConfusion
  | _ :: _, [] => isFalse List.noConfusion
  | x :: xs, y :: ys =>
      match Json.decEq x y with
      | isFalse h => isFalse (fun hh => h (List.cons.inj hh).1)
      | isTrue h1 =>
          match Json.decEqList xs ys with
          | isTrue h2 => isTrue (h1 ▸ h2 ▸ rfl)
          | isFalse h2 => isFalse (fun hh => h2 (List.cons.inj hh).2)

def Json.decEqObj : (a b : List (String × Json)) → Decidable (a = b)
  | [], [] => isTrue rfl
  | [], _ :: _ => isFalse List.noConfusion
  | _ :: _, [] => isFalse List.noConfusion
  | (k, v) :: xs, (k2, v2) :: ys =>
      if hk : k = k2 then
        (match Json.decEq v v2 with
         | isFalse h => isFalse (fun hh => h (Prod.mk.inj (List.cons.inj hh).1).2)
         | isTrue hv =>
             match Json.decEqObj xs ys with
             | isTrue h2 => isTrue (hk ▸ hv ▸ h2 ▸ rfl)
             | isFalse h2 => isFalse (fun hh => h2 (List.cons.inj hh).2))
      else isFalse (fun hh => hk (Prod.mk.inj (List.cons.inj hh).1).1)

end

instance : DecidableEq Json := Json.decEq

/-- Python truthiness for JSON-shaped values. -/
def Json.truthy : Json → Bool
  | .null => false
  | .bool b => b
  | .num n => n != 0
  | .str s => !s.data.isEmpty
  | .arr xs => !xs.isEmpty
  | .obj kvs => !kvs.isEmpty

/-- `d.get(k, default)` on a value known to be a dict (first binding wins;
JSON objects have unique keys). -/
def getKV (kvs : List (String × Json)) (k : String) (d : Json) : Json :=
  match kvs with
  | [] => d
  | (k2, v) :: rest => if k2 == k then v else getKV rest k d

/-- Python `repr` of a JSON-shaped value (`str()` falls back to it for every
non-string value; quote escaping inside nested strings is not modelled). -/
def Json.pyRepr : Json → String
  | .null => "None"
  | .bool true => "True"
  | .bool false => "False"
  | .num n => toString n
  | .str s => "\x27" ++ s ++ "\x27"
  | .arr xs => "[" ++ String.intercalate ", " (reprList xs) ++ "]"
  | .obj kvs => "\x7b" ++ String.intercalate ", " (reprObj kvs) ++ "\x7d"
where
  reprList : List Json → List String
    | [] => []
    | x :: xs => x.pyRepr :: reprList xs
  reprObj : List (String × Json) → List String
    | [] => []
    | (k, v) :: xs => ("\x27" ++ k ++ "\x27: " ++ v.pyRepr) :: reprObj xs

/-- Python `str()` of a JSON-shaped value. -/
def Json.pyStr : Json → String
  | .str s => s
  | j => j.pyRepr

/-! ### String helpers (code-point based, matching Python semantics) -/

/-- Python slicing `s[:n]`. -/
def strTake (s : String) (n : Nat) : String := String.mk (s.data.take n)

/-- Python `s.lower()` (ASCII). -/
def lowerStr (s : String) : String := String.mk (s.data.map Char.toLower)

/-- Python `s.upper()` (ASCII). -/
def upperStr (s : String) : String := String.mk (s.data.map Char.toUpper)

def isPrefixL : List Char → List Char → Bool
  | [], _ => true
  | _ :: _, [] => false
  | a :: as, b :: bs => a == b && isPrefixL as bs

def containsSub (needle : List Char) : List Char → Bool
  | [] => needle.isEmpty
  | b :: bs => isPrefixL needle (b :: bs) || containsSub needle bs

/-- Python substring test `needle in hay`. -/
def pyIn (needle hay : String) : Bool := containsSub needle.data hay.data

/-- Python `s.startswith(p)`. -/
def pyStartsWith (s p : String) : Bool := isPrefixL p.data s.data

/-- Python `s.endswith(p)`. -/
def pyEndsWith (s p : String) : Bool := isPrefixL p.data.reverse s.data.reverse

/-! ### Exception-carrying helpers for fallible Python operations -/

/-- Monadic `map` over a list, first exception wins (Python loop order). -/
def mapME {α β : Type} (f : α → Except String β) : List α → Except String (List β)
  | [] => .ok []
  | a :: as =>
      match f a with
      | .error e => .error e
      | .ok b =>
          match mapME f as with
          | .error e => .error e
          | .ok bs => .ok (b :: bs)

/-- Monadic filter (Python list comprehension with a fallible test). -/
def filterME {α : Type} (p : α → Except String Bool) : List α → Except String (List α)
  | [] => .ok []
  | a :: as =>
      match p a with
      | .error e => .error e
      | .ok b =>
          match filterME p as with
          | .error e => .error e
          | .ok rest => .ok (if b then a :: rest else rest)

/-- `j.get(k, d)`: raises `AttributeError` when `j` is not a dict. -/
def pyGetD (j : Json) (k : String) (d : Json) : Except String Json :=
  match j with
  | .obj kvs => .ok (getKV kvs k d)
  | _ => .error "AttributeError: no attribute get"

/-- `j.lower()`: raises unless `j` is a string. -/
def pyLowerJ : Json → Except String String
  | .str s => .ok (lowerStr s)
  | _ => .error "AttributeError: no attribute lower"

/-- `j[:n]`: raises `TypeError` unless `j` is subscriptable. -/
def pySlice : Json → Nat → Except String Json
  | .str s, n => .ok (.str (strTake s n))
  | .arr xs, n => .ok (.arr (xs.take n))
  | _, _ => .error "TypeError: not subscriptable"

/-- `for x in j`: dicts iterate over their keys, strings over their
characters; other scalars raise `TypeError`. -/
def pyIter : Json → Except String (List Json)
  | .arr xs => .ok xs
  | .str s => .ok (s.data.map (fun c => Json.str (String.mk [c])))
  | .obj kvs => .ok (kvs.map (fun kv => Json.str kv.1))
  | _ => .error "TypeError: not iterable"

/-- Python `a or d` on JSON-shaped values. -/
def jsonOr (a d : Json) : Json := if a.truthy then a else d

/-! ### `extract_ui_elements` (source lines 49-84) -/

/-- One parsed HTML element as BeautifulSoup presents it: tag name,
`id`/`name`/`type` attributes, class list, text content. -/
structure HtmlNode where
  tag : String
  idAttr : Option String
  nameAttr : Option String
  typeAttr : Option String
  classes : List String
  text : String
deriving DecidableEq, Repr

/-- Python `attr or d` where `attr` is `tag.get(...)` (`None` or a string;
the empty string is falsy). -/
def attrOr (a : Option String) (d : String) : String :=
  match a with
  | some s => if s.data.isEmpty then d else s
  | none => d

/-- Truthiness of a `tag.get(...)` result. -/
def attrTruthy (a : Option String) : Bool :=
  match a with
  | some s => !s.data.isEmpty
  | none => false

/-- f-string rendering of a `tag.get(...)` result (`None` prints as "None"). -/
def pyOptStr (a : Option String) : String :=
  match a with
  | some s => s
  | none => "None"

/-- The record appended for a matching node by the button loop (lines 62-68). -/
def buttonElem (btn : HtmlNode) : Json :=
  Json.obj [("type", .str "button"),
    ("name", .str (attrOr btn.idAttr (attrOr btn.nameAttr (strTake btn.text 20)))),
    ("locator", .str (if attrTruthy btn.idAttr then "id:" ++ pyOptStr btn.idAttr
                      else "text:" ++ strTake btn.text 20))]

/-- `soup.find_all(['button', 'input', '*'])` matches every element, so the
button loop scans all nodes, keeping those with `type == 'submit'` or
`'btn'` in the class list. -/
def buttonsLoop : List HtmlNode → List Json
  | [] => []
  | btn :: rest =>
      if btn.typeAttr == some "submit" || btn.classes.contains "btn" then
        buttonElem btn :: buttonsLoop rest
      else buttonsLoop rest

/-- The record appended by the input loop (lines 71-76); `k` is
`len(elements)` at append time. -/
def inputElem (inp : HtmlNode) (k : Nat) : Json :=
  Json.obj [("type", .str "input"),
    ("name", .str (attrOr inp.idAttr (attrOr inp.nameAttr ("input-" ++ toString k)))),
    ("locator", .str (if attrTruthy inp.nameAttr then "name:" ++ pyOptStr inp.nameAttr
                      else "id:" ++ pyOptStr inp.idAttr))]

/-- The input loop (lines 71-76): appends one record per `input` tag onto the
list accumulated so far (whose length feeds the `input-<k>` placeholder). -/
def inputsLoop : List HtmlNode → List Json → List Json
  | [], elements => elements
  | inp :: rest, elements =>
      if inp.tag == "input" then
        inputsLoop rest (elements ++ [inputElem inp elements.length])
      else inputsLoop rest elements

/-- The whole HTML branch of `extract_ui_elements` given the parsed nodes. -/
def uiFromNodes (nodes : List HtmlNode) : List Json :=
  inputsLoop nodes (buttonsLoop nodes)

/-- `extract_ui_elements` (lines 49-84).  `parse` stands for BeautifulSoup. -/
def extract_ui_elements (parse : String → List HtmlNode) (elements_data : Json) : List Json :=
  if !elements_data.truthy then []
  else match elements_data with
    | .str s => uiFromNodes (parse s)
    | .arr xs => xs
    | _ => []

/-! ### `extract_network_requests` (source lines 87-122) -/

/-- The HAR-style entry loop (lines 98-107). -/
def netDictLoop : List Json → Except String (List Json)
  | [] => .ok []
  | entry :: rest =>
      match entry with
      | .obj ekvs => do
          let u0 := getKV ekvs "url" .null
          let url ← if u0.truthy then pure u0
            else pyGetD (getKV ekvs "request" (.obj [])) "url" (.str "")
          if url.truthy then do
            let lurl ← pyLowerJ url
            let reqs ← netDictLoop rest
            pure (Json.obj [("url", url),
              ("method", jsonOr (getKV ekvs "method" .null) (.str "GET")),
              ("status", jsonOr (getKV ekvs "status" .null) (.num 0)),
              ("type", .str (if pyIn "api" lurl then "api" else "resource"))] :: reqs)
          else netDictLoop rest
      | _ => netDictLoop rest

/-- The simple-list request loop (lines 111-120). -/
def netListLoop : List Json → Except String (List Json)
  | [] => .ok []
  | req :: rest =>
      match req with
      | .obj rkvs => do
          let url := getKV rkvs "url" (.str "")
          if url.truthy then do
            let lurl ← pyLowerJ url
            let reqs ← netListLoop rest
            pure (Json.obj [("url", url),
              ("method", getKV rkvs "method" (.str "GET")),
              ("status", getKV rkvs "status" (.num 0)),
              ("type", .str (if pyIn "api" lurl then "api" else "resource"))] :: reqs)
          else netListLoop rest
      | _ => netListLoop rest

/-- `extract_network_requests` (lines 87-122). -/
def extract_network_requests (network_data : Json) : Except String (List Json) :=
  if !network_data.truthy then .ok []
  else match network_data with
    | .obj kvs => do
        let entries ← pyIter (getKV kvs "entries" (getKV kvs "logs" (.arr [])))
        netDictLoop entries
    | .arr xs => netListLoop xs
    | _ => .ok []

/-! ### `extract_local_storage` (source lines 125-161) -/

/-- Python `display_value[:50] + '...'` truncation (lines 137-139, 151-153). -/
def truncate50 (s : String) : String :=
  if 50 < s.data.length then strTake s 50 ++ "..." else s

/-- The mapping branch loop (lines 132-145). -/
def storageDictLoop : List (String × Json) → List Json
  | [] => []
  | (key, value) :: rest =>
      if pyEndsWith (lowerStr key) "token" || key == "user" || key == "email" then
        storageDictLoop rest
      else
        Json.obj [("key", .str key), ("value", .str (truncate50 value.pyStr)),
            ("type", .str "storage")]
          :: storageDictLoop rest

/-- The sequence branch loop (lines 148-159). -/
def storageListLoop : List Json → List Json
  | [] => []
  | item :: rest =>
      match item with
      | .obj kvs =>
          Json.obj [("key", getKV kvs "key" (.str "")),
              ("value", .str (truncate50 (getKV kvs "value" (.str "")).pyStr)),
              ("type", .str "storage")]
            :: storageListLoop rest
      | _ => storageListLoop rest

/-- `extract_local_storage` (lines 125-161). -/
def extract_local_storage (storage_data : Json) : List Json :=
  if !storage_data.truthy then []
  else match storage_data with
    | .obj kvs => storageDictLoop kvs
    | .arr xs => storageListLoop (xs.take 20)
    | _ => []

/-! ### `generate_local_test_case` (source lines 288-433)

The report is represented as a list of lines; `linesToString` recovers the
exact Python string (each Python append of `"...\n"` is one line, a
trailing `"\n\n"` contributes an extra empty line). -/

def linesToString (ls : List String) : String :=
  String.join (ls.map (fun l => l ++ "\n"))

/-! #### UI elements section (lines 306-348) -/

/-- Appending an element to its category in the `defaultdict`, preserving
first-seen category order (dict insertion order). -/
def catAppend : List (String × List Json) → String → Json → List (String × List Json)
  | [], c, e => [(c, [e])]
  | (k, es) :: rest, c, e =>
      if k == c then (k, es ++ [e]) :: rest else (k, es) :: catAppend rest c e

/-- The category chosen for an element (lines 320-331). -/
def elemCategory (elem_type : String) (element : Json) : String :=
  if pyIn "button" elem_type then "button"
  else if pyIn "link" elem_type || pyIn "a href" element.pyStr then "link"
  else if pyIn "input" elem_type || pyIn "text" elem_type then "input"
  else if pyIn "select" elem_type || pyIn "dropdown" elem_type then "dropdown"
  else if pyIn "checkbox" elem_type || pyIn "radio" elem_type then "checkbox"
  else "other"

/-- The categorization loop (lines 314-331): non-dict elements are skipped;
`element.get('type', '').lower()` raises when the `type` value is present
but not a string. -/
def categorize : List Json → List (String × List Json) → Except String (List (String × List Json))
  | [], cats => .ok cats
  | element :: rest, cats =>
      match element with
      | .obj kvs =>
          (match pyLowerJ (getKV kvs "type" (.str "")) with
           | .error e => .error e
           | .ok elem_type =>
               categorize rest (catAppend cats (elemCategory elem_type element) element))
      | _ => categorize rest cats

/-- One element line (lines 338-343): `- <name>` plus an optional
` (Locator: <locator[:50]>)` suffix; the locator is looked up under the
keys `id`, `xpath`, `selector`. -/
def renderElemLine (element : Json) : Except String String :=
  match element with
  | .obj kvs =>
      let name := getKV kvs "name" (getKV kvs "id" (getKV kvs "class" (.str "unnamed")))
      let locator := jsonOr (getKV kvs "id" .null)
        (jsonOr (getKV kvs "xpath" .null) (getKV kvs "selector" (.str "")))
      if locator.truthy then
        match pySlice locator 50 with
        | .error e => .error e
        | .ok l => .ok ("- " ++ name.pyStr ++ " (Locator: " ++ l.pyStr ++ ")")
      else .ok ("- " ++ name.pyStr)
  | _ => .error "AttributeError: no attribute get"

/-- `f"{category.upper()}S ({len(elements)}):"` (line 336). -/
def catHeaderLine (category : String) (n : Nat) : String :=
  upperStr category ++ "S (" ++ toString n ++ "):"

/-- One category block (lines 334-346): header, first 10 element lines,
overflow line when more than 10, then a blank line. -/
def renderCategory (category : String) (elements : List Json) : Except String (List String) :=
  if elements.isEmpty then .ok []
  else
    match mapME renderElemLine (elements.take 10) with
    | .error e => .error e
    | .ok items =>
        .ok ([catHeaderLine category elements.length] ++ items
          ++ (if 10 < elements.length then
                ["... plus " ++ toString (elements.length - 10) ++ " more"] else [])
          ++ [""])

def renderCats : List (String × List Json) → Except String (List String)
  | [] => .ok []
  | (c, es) :: rest =>
      match renderCategory c es with
      | .error e => .error e
      | .ok ls =>
          match renderCats rest with
          | .error e => .error e
          | .ok more => .ok (ls ++ more)

/-- The UI elements section (lines 310-348). -/
def uiSection (ui_elements : List Json) : Except String (List String) :=
  if ui_elements.isEmpty then .ok ["No UI elements captured", ""]
  else
    match categorize ui_elements [] with
    | .error e => .error e
    | .ok cats =>
        match renderCats cats with
        | .error e => .error e
        | .ok body => .ok (["--- UI ELEMENTS CATEGORIZED ---", ""] ++ body)

/-! #### Network requests section (lines 350-382) -/

/-- The comprehension test `'/api/' in r.get('url', '').lower()` (line 359). -/
def isApiCall (r : Json) : Except String Bool :=
  match r with
  | .obj kvs =>
      (match pyLowerJ (getKV kvs "url" (.str "")) with
       | .error e => .error e
       | .ok l => .ok (pyIn "/api/" l))
  | _ => .error "AttributeError: no attribute get"

/-- `[r for r in network_requests if r not in api_calls]` (line 360). -/
def staticResources (network_requests api_calls : List Json) : List Json :=
  network_requests.filter (fun r => decide (¬ r ∈ api_calls))

/-- `url.split('?')[0][:80]` (line 367). -/
def pySplitQTake : Json → Except String String
  | .str s => .ok (strTake (String.mk (s.data.takeWhile (fun c => c != '?'))) 80)
  | _ => .error "AttributeError: no attribute split"

/-- One API call line (lines 363-370). -/
def renderApiLine (req : Json) : Except String String :=
  match req with
  | .obj kvs =>
      let method := getKV kvs "method" (.str "GET")
      let url := getKV kvs "url" (.str "")
      let status := getKV kvs "status" (.str "")
      (match pySplitQTake url with
       | .error e => .error e
       | .ok u =>
           let base := "- " ++ method.pyStr ++ " " ++ u
           .ok (if status.truthy then base ++ " (" ++ status.pyStr ++ ")" else base))
  | _ => .error "AttributeError: no attribute get"

/-- The API calls block (lines 362-372). -/
def renderApiBlock (api_calls : List Json) : Except String (List String) :=
  match mapME renderApiLine (api_calls.take 10) with
  | .error e => .error e
  | .ok ls =>
      .ok (["API CALLS (" ++ toString api_calls.length ++ "):"] ++ ls
        ++ (if 10 < api_calls.length then
              ["... plus " ++ toString (api_calls.length - 10) ++ " more"] else []))

/-- `url.split('/')[-1]`. -/
def splitCharL (c : Char) : List Char → List Char → List (List Char)
  | [], cur => [cur.reverse]
  | a :: as, cur =>
      if a == c then cur.reverse :: splitCharL c as [] else splitCharL c as (a :: cur)

def lastSlashComponent (s : String) : String :=
  String.mk ((splitCharL '/' s.data []).getLastD [])

/-- One static resource entry (lines 375-378): zero lines when the URL is
falsy, one basename line for a non-empty string URL, and `url.split`
raises for a truthy non-string URL. -/
def renderStaticLines (req : Json) : Except String (List String) :=
  match req with
  | .obj kvs =>
      (match getKV kvs "url" (.str "") with
       | .str s =>
           if s.data.isEmpty then .ok []
           else .ok ["- " ++ strTake (lastSlashComponent s) 50]
       | u => if u.truthy then .error "AttributeError: no attribute split" else .ok [])
  | _ => .error "AttributeError: no attribute get"

/-- The static resources block (lines 374-380), including the blank line
printed by `f"\nSTATIC RESOURCES ..."`. -/
def renderStaticBlock (statics : List Json) : Except String (List String) :=
  match mapME renderStaticLines (statics.take 5) with
  | .error e => .error e
  | .ok lss =>
      .ok (["", "STATIC RESOURCES (" ++ toString statics.length ++ "):"] ++ lss.flatten
        ++ (if 5 < statics.length then
              ["... plus " ++ toString (statics.length - 5) ++ " more"] else []))

/-- The network requests section (lines 355-382). -/
def networkSection (network_requests : List Json) : Except String (List String) :=
  if network_requests.isEmpty then .ok ["No network requests captured", ""]
  else
    match filterME isApiCall network_requests with
    | .error e => .error e
    | .ok api_calls =>
        match renderApiBlock api_calls with
        | .error e => .error e
        | .ok apiLines =>
            match renderStaticBlock (staticResources network_requests api_calls) with
            | .error e => .error e
            | .ok staticLines =>
                .ok (["--- NETWORK REQUESTS ---", ""] ++ apiLines ++ staticLines)

/-! #### Local storage section (lines 384-427) -/

def sensitive_keys : List String := ["token", "auth", "secret", "password"]

/-- `any(s in key for s in sensitive_keys)` (line 405). -/
def isSensitiveKey (key : String) : Bool := sensitive_keys.any (fun s => pyIn s key)

/-- `str(item.get('key', '')).lower()` (line 401). -/
def itemLowKey (kvs : List (String × Json)) : String :=
  lowerStr (getKV kvs "key" (.str "")).pyStr

/-- `key.startswith(('user', 'account', 'profile'))` (line 408). -/
def startsUserish (key : String) : Bool :=
  pyStartsWith key "user" || pyStartsWith key "account" || pyStartsWith key "profile"

/-- The filter-and-partition loop (lines 393-411), preserving order
(non-dict items are skipped by the `isinstance` guard). -/
def storageUserApp : List Json → List Json × List Json
  | [] => ([], [])
  | Json.obj kvs :: rest =>
      if isSensitiveKey (itemLowKey kvs) then storageUserApp rest
      else if startsUserish (itemLowKey kvs) then
        (Json.obj kvs :: (storageUserApp rest).1, (storageUserApp rest).2)
      else ((storageUserApp rest).1, Json.obj kvs :: (storageUserApp rest).2)
  | _ :: rest => storageUserApp rest

/-- One storage line `- <key>: <value[:100]>` (lines 415, 421). -/
def renderStorageLine (item : Json) : Except String String :=
  match item with
  | .obj kvs =>
      (match pySlice (getKV kvs "value" (.str "")) 100 with
       | .error e => .error e
       | .ok v => .ok ("- " ++ (getKV kvs "key" (.str "")).pyStr ++ ": " ++ v.pyStr))
  | _ => .error "AttributeError: no attribute get"

/-- A capped storage list: first 10 lines plus an overflow line
(lines 414-417 and 420-423 share this shape). -/
def renderCappedStorage (items : List Json) : Except String (List String) :=
  match mapME renderStorageLine (items.take 10) with
  | .error e => .error e
  | .ok ls =>
      .ok (ls ++ (if 10 < items.length then
        ["... plus " ++ toString (items.length - 10) ++ " more"] else []))

/-- The storage section body for a non-empty item list (lines 390-425). -/
def storageSection (local_storage : List Json) : Except String (List String) :=
  match renderCappedStorage (storageUserApp local_storage).1 with
  | .error e => .error e
  | .ok userLines =>
      match renderCappedStorage (storageUserApp local_storage).2 with
      | .error e => .error e
      | .ok appLines =>
          .ok (["--- LOCAL STORAGE ---", "", "USER SESSION DATA:"] ++ userLines
            ++ ["", "APPLICATION PREFERENCES:"] ++ appLines
            ++ ["", "FILTERED ITEMS (sensitive data omitted)"])

/-- The storage section with its emptiness guard (lines 389-427). -/
def storageSectionFull (local_storage : List Json) : Except String (List String) :=
  if local_storage.isEmpty then .ok ["No local storage data captured"]
  else storageSection local_storage

/-! #### Whole report -/

/-- Everything the `try` block builds after the fixed header
(lines 299-429): any `.error` models an exception reaching the
`except` clause. -/
def reportBodyLines (parse : String → List HtmlNode) (scan_data : Json) (page : String) :
    Except String (List String) := do
  let page_scan_data ← pyGetD scan_data page (.obj [])
  let urlVal ← pyGetD page_scan_data "URL" (.str "Not available")
  let uiInner ← pyGetD page_scan_data "elements" (.arr [])
  let uiRaw ← pyGetD page_scan_data "InspectElementHTML" uiInner
  let uiLines ← uiSection (extract_ui_elements parse uiRaw)
  let netInner ← pyGetD page_scan_data "network_requests" (.arr [])
  let netRaw ← pyGetD page_scan_data "NetworkRequests" netInner
  let network_requests ← extract_network_requests netRaw
  let netLines ← networkSection network_requests
  let stInner ← pyGetD page_scan_data "local_storage" (.arr [])
  let stRaw ← pyGetD page_scan_data "LocalStorage" stInner
  let stLines ← storageSectionFull (extract_local_storage stRaw)
  pure (["Page: " ++ page, "URL: " ++ urlVal.pyStr, ""] ++ uiLines ++ netLines ++ stLines)

def analysisHeader : String := "=== SCAN DATA ANALYSIS ===\n"

/-- `generate_local_test_case` (lines 288-433).  The two `load_json` results
are parameters (`none` models a failed load); `details` and `scenario` of
the Python signature are unused by the function body and omitted.  Every
return path starts with the fixed header, and the `except` clause turns any
internal exception into the page-scoped error string. -/
def generate_local_test_case (parse : String → List HtmlNode)
    (scan_data test_plan : Option Json) (page : String) : String :=
  analysisHeader ++
    match scan_data, test_plan with
    | some sd, some _ =>
        (match reportBodyLines parse sd page with
         | .ok ls => linesToString ls
         | .error e => "Error generating report for " ++ page ++ ": " ++ e ++ "\n")
    | _, _ => "Error: Failed to load test data\n"

/-! ### Helper lemmas -/

theorem mapME_ok_length {α β : Type} (f : α → Except String β) :
    ∀ (l : List α) (out : List β), mapME f l = .ok out → out.length = l.length := by
  intro l
  induction l with
  | nil =>
      intro out h
      simp only [mapME] at h
      cases h
      rfl
  | cons a as ih =>
      intro out h
      simp only [mapME] at h
      cases hfa : f a with
      | error e => rw [hfa] at h; cases h
      | ok b =>
          rw [hfa] at h
          cases hrest : mapME f as with
          | error e => rw [hrest] at h; cases h
          | ok bs =>
              rw [hrest] at h
              cases h
              simp [ih bs hrest]

theorem filterME_ok_exists {α : Type} (p : α → Except String Bool) :
    ∀ (l out : List α), filterME p l = .ok out → ∀ x ∈ l, ∃ b, p x = .ok b := by
  intro l
  induction l with
  | nil => intro out _ x hx; cases hx
  | cons a as ih =>
      intro out h x hx
      simp only [filterME] at h
      cases hpa : p a with
      | error e => rw [hpa] at h; cases h
      | ok b =>
          rw [hpa] at h
          cases hrest : filterME p as with
          | error e => rw [hrest] at h; cases h
          | ok rest =>
              rcases List.mem_cons.mp hx with hxa | hxas
              · exact ⟨b, hxa ▸ hpa⟩
              · exact ih rest hrest x hxas

theorem filterME_mem_iff {α : Type} (p : α → Except String Bool) :
    ∀ (l out : List α), filterME p l = .ok out →
      ∀ x, x ∈ out ↔ (x ∈ l ∧ p x = .ok true) := by
  intro l
  induction l with
  | nil =>
      intro out h x
      simp only [filterME] at h
      cases h
      simp
  | cons a as ih =>
      intro out h x
      simp only [filterME] at h
      cases hpa : p a with
      | error e => rw [hpa] at h; cases h
      | ok b =>
          rw [hpa] at h
          cases hrest : filterME p as with
          | error e => rw [hrest] at h; cases h
          | ok rest =>
              rw [hrest] at h
              cases h
              by_cases hx : x = a
              · subst hx
                cases b with
                | true => simp [hpa, ih rest hrest]
                | false => simp [List.mem_cons, ih rest hrest, hpa]
              · cases b with
                | true => simp [List.mem_cons, hx, ih rest hrest]
                | false => simp [List.mem_cons, hx, ih rest hrest]

theorem ne_empty_of_length_pos (s : String) (h : 0 < s.length) : s ≠ "" := by
  intro hs
  rw [hs] at h
  exact Nat.lt_irrefl 0 h

theorem attrOr_length_pos (a : Option String) (d : String) (hd : 0 < d.length) :
    0 < (attrOr a d).length := by
  cases a with
  | none => exact hd
  | some s =>
      simp only [attrOr]
      split
      · exact hd
      · rename_i hs
        have hne : s.data ≠ [] := by simpa using hs
        have : s.data.length ≠ 0 := fun h0 => hne (List.length_eq_zero.mp h0)
        exact Nat.pos_of_ne_zero this

/-- The `name` field of a normalized UI element record. -/
def elemName : Json → String
  | .obj kvs => (getKV kvs "name" (.str "")).pyStr
  | _ => ""

theorem inputsLoop_mem :
    ∀ (nodes : List HtmlNode) (init : List Json) (e : Json),
      e ∈ inputsLoop nodes init → e ∈ init ∨ ∃ inp k, e = inputElem inp k := by
  intro nodes
  induction nodes with
  | nil => intro init e h; exact Or.inl h
  | cons inp rest ih =>
      intro init e h
      simp only [inputsLoop] at h
      by_cases ht : inp.tag == "input"
      · rw [if_pos ht] at h
        rcases ih _ e h with hin | hex
        · rcases List.mem_append.mp hin with h1 | h2
          · exact Or.inl h1
          · exact Or.inr ⟨inp, init.length, List.mem_singleton.mp h2⟩
        · exact Or.inr hex
      · rw [if_neg ht] at h
        exact ih _ e h

theorem inputElem_name_length (inp : HtmlNode) (k : Nat) :
    0 < (elemName (inputElem inp k)).length := by
  show 0 < (attrOr inp.idAttr (attrOr inp.nameAttr ("input-" ++ toString k))).length
  refine attrOr_length_pos _ _ (attrOr_length_pos _ _ ?_)
  rw [String.length_append]
  have : "input-".length = 6 := rfl
  omega

/-! ### Claims -/

/-- C9: every string returned by `generate_local_test_case` begins with the
fixed header `"=== SCAN DATA ANALYSIS ===\n"`, on the success path, on the
failed-input-file-load path, and on the caught-exception path alike. -/
theorem C9_report_header (parse : String → List HtmlNode)
    (scan_data test_plan : Option Json) (page : String) :
    ∃ rest, generate_local_test_case parse scan_data test_plan page =
      "=== SCAN DATA ANALYSIS ===\n" ++ rest :=
  ⟨_, rfl⟩

/-- C8: the deterministic pipeline is deterministic — two runs of
`generate_local_test_case` on identical input data yield identical
report text. -/
theorem C8_deterministic (parse : String → List HtmlNode)
    (sd tp sd2 tp2 : Option Json) (p p2 : String)
    (h1 : sd = sd2) (h2 : tp = tp2) (h3 : p = p2) :
    generate_local_test_case parse sd tp p = generate_local_test_case parse sd2 tp2 p2 := by
  subst h1; subst h2; subst h3; rfl

/-- C8 witness: the determinism theorem applied to a concrete run. -/
theorem C8_deterministic_witness :
    generate_local_test_case (fun _ => []) (some (.obj [])) (some (.obj [])) "Home" =
      generate_local_test_case (fun _ => []) (some (.obj [])) (some (.obj [])) "Home" :=
  C8_deterministic (fun _ => []) (some (.obj [])) (some (.obj []))
    (some (.obj [])) (some (.obj [])) "Home" "Home" rfl rfl rfl

/-- The single-page scan input of the C2 scenario. -/
def homeScan : Json := .obj [("Home", .obj [
  ("URL", .str "https://x/"),
  ("elements", .arr [.obj [("type", .str "button"), ("name", .str "Submit"),
                           ("locator", .str "id:submit-btn")]]),
  ("network_requests", .arr [.obj [("url", .str "https://x/api/login"),
                                   ("method", .str "POST"), ("status", .num 200)]]),
  ("local_storage", .obj [("theme", .str "dark"), ("token_auth", .str "abc123")])])]

/-- The deterministic report the code produces for the C2 scenario. -/
def homeReport : String :=
  generate_local_test_case (fun _ => []) (some homeScan) (some (.obj [])) "Home"

/-- C2: evaluation of the code on the scenario input.  The BUTTONS, API
CALLS and APPLICATION PREFERENCES assertions hold and `token_auth` is
absent, but the claimed line `- Submit (Locator: id:submit-btn)` does NOT
appear: the assembler looks the locator up under the keys `id`, `xpath`,
`selector` (line 339) and never under `locator` — the field the normalizer
itself produces (lines 67, 75) — so the button renders as `- Submit`. -/
theorem C2_scenario_eval :
    pyIn "BUTTONS (1):" homeReport = true ∧
    pyIn "- Submit (Locator: id:submit-btn)" homeReport = false ∧
    pyIn "- Submit\n" homeReport = true ∧
    pyIn "API CALLS (1):" homeReport = true ∧
    pyIn "- POST https://x/api/login (200)" homeReport = true ∧
    pyIn "APPLICATION PREFERENCES:" homeReport = true ∧
    pyIn "- theme: dark" homeReport = true ∧
    pyIn "token_auth" homeReport = false := by
  decide

/-- A storage input in record-sequence form whose keys include the
sensitive substring key `password` and the claimed-excluded key `email`. -/
def storageC1 : Json := .arr [
  .obj [("key", .str "email"), ("value", .str "e")],
  .obj [("key", .str "password"), ("value", .str "p")]]

/-- C1 counterexample: the storage Normalizer output for `storageC1`
contains an item whose key is `password` (a sensitive substring), and the
storage section of the report renders the line `- email: e`, so both the
`extract_local_storage`-output half and the user/email half of the claim
fail on the code. -/
theorem C1_counterexample :
    isSensitiveKey (lowerStr "password") = true ∧
    extract_local_storage storageC1 =
      [.obj [("key", .str "email"), ("value", .str "e"), ("type", .str "storage")],
       .obj [("key", .str "password"), ("value", .str "p"), ("type", .str "storage")]] ∧
    storageSectionFull (extract_local_storage storageC1) =
      .ok ["--- LOCAL STORAGE ---", "", "USER SESSION DATA:", "",
           "APPLICATION PREFERENCES:", "- email: e", "",
           "FILTERED ITEMS (sensitive data omitted)"] :=
  ⟨by decide, by decide, rfl⟩

/-- C1 (amended): every storage item that reaches the user/app partition
feeding the report storage lines is a record whose lowercased stringified
key contains none of token, auth, secret, password; keys ending in `token`
(case-insensitively) or equal to `user`/`email` are additionally dropped by
the Normalizer only in mapping form. -/
theorem C1_storage_redaction :
    ∀ (items : List Json) (item : Json),
      item ∈ (storageUserApp items).1 ∨ item ∈ (storageUserApp items).2 →
      ∃ kvs, item = Json.obj kvs ∧ isSensitiveKey (itemLowKey kvs) = false := by
  intro items
  induction items with
  | nil => intro item h; rcases h with h | h <;> cases h
  | cons it rest ih =>
      intro item h
      cases it with
      | obj kvs =>
          simp only [storageUserApp] at h
          by_cases hs : isSensitiveKey (itemLowKey kvs) = true
          · rw [if_pos hs] at h
            exact ih item h
          · rw [if_neg hs] at h
            have hs2 : isSensitiveKey (itemLowKey kvs) = false :=
              Bool.eq_false_iff.mpr hs
            by_cases hu : startsUserish (itemLowKey kvs) = true
            · rw [if_pos hu] at h
              rcases h with h1 | h2
              · rcases List.mem_cons.mp h1 with he | hm
                · exact ⟨kvs, he, hs2⟩
                · exact ih item (Or.inl hm)
              · exact ih item (Or.inr h2)
            · rw [if_neg hu] at h
              rcases h with h1 | h2
              · exact ih item (Or.inl h1)
              · rcases List.mem_cons.mp h2 with he | hm
                · exact ⟨kvs, he, hs2⟩
                · exact ih item (Or.inr hm)
      | null => exact ih item (by simpa only [storageUserApp] using h)
      | bool b => exact ih item (by simpa only [storageUserApp] using h)
      | num n => exact ih item (by simpa only [storageUserApp] using h)
      | str s => exact ih item (by simpa only [storageUserApp] using h)
      | arr xs => exact ih item (by simpa only [storageUserApp] using h)

/-- C1 witness: the redaction theorem applied to a concrete partition
member. -/
theorem C1_storage_redaction_witness :
    ∃ kvs, (Json.obj [("key", Json.str "theme"), ("value", Json.str "dark")]) =
        Json.obj kvs ∧ isSensitiveKey (itemLowKey kvs) = false :=
  C1_storage_redaction [.obj [("key", .str "theme"), ("value", .str "dark")]]
    (.obj [("key", .str "theme"), ("value", .str "dark")]) (Or.inr (by decide))

/-- C3 counterexample: `extract_network_requests` raises (a `TypeError`
reaches the caller) on the mapping input whose `entries` value is the
non-iterable number 5, so the three Normalizer functions are not all
total. -/
theorem C3_counterexample :
    extract_network_requests (Json.obj [("entries", Json.num 5)]) =
      .error "TypeError: not iterable" := rfl

/-- C3 (amended): `extract_ui_elements` and `extract_local_storage` are
total functions of the model and unexpected shapes degrade to the empty
sequence, and `extract_network_requests` also degrades to an empty result
on shapes that are neither mappings nor sequences — but on mapping (and
sequence) inputs it can raise, as the counterexample shows. -/
theorem C3_degradation :
    (∀ (parse : String → List HtmlNode) (d : Json),
        (∀ s, d ≠ .str s) → (∀ xs, d ≠ .arr xs) → extract_ui_elements parse d = []) ∧
    (∀ d : Json, (∀ kvs, d ≠ .obj kvs) → (∀ xs, d ≠ .arr xs) →
        extract_local_storage d = []) ∧
    (∀ d : Json, (∀ kvs, d ≠ .obj kvs) → (∀ xs, d ≠ .arr xs) →
        extract_network_requests d = .ok []) := by
  refine ⟨?_, ?_, ?_⟩
  · intro parse d hs hx
    cases d with
    | null => rfl
    | bool b => cases b <;> rfl
    | num n => simp only [extract_ui_elements]; split <;> rfl
    | str s => exact absurd rfl (hs s)
    | arr xs => exact absurd rfl (hx xs)
    | obj kvs => simp only [extract_ui_elements]; split <;> rfl
  · intro d ho hx
    cases d with
    | null => rfl
    | bool b => cases b <;> rfl
    | num n => simp only [extract_local_storage]; split <;> rfl
    | str s => simp only [extract_local_storage]; split <;> rfl
    | arr xs => exact absurd rfl (hx xs)
    | obj kvs => exact absurd rfl (ho kvs)
  · intro d ho hx
    cases d with
    | null => rfl
    | bool b => cases b <;> rfl
    | num n => simp only [extract_network_requests]; split <;> rfl
    | str s => simp only [extract_network_requests]; split <;> rfl
    | arr xs => exact absurd rfl (hx xs)
    | obj kvs => exact absurd rfl (ho kvs)

/-- C3 witness: the degradation theorem applied at the number input 7. -/
theorem C3_degradation_witness :
    extract_ui_elements (fun _ => []) (Json.num 7) = [] ∧
    extract_local_storage (Json.num 7) = [] ∧
    extract_network_requests (Json.num 7) = .ok [] :=
  ⟨C3_degradation.1 (fun _ => []) (Json.num 7)
      (fun _ h => Json.noConfusion h) (fun _ h => Json.noConfusion h),
   C3_degradation.2.1 (Json.num 7)
      (fun _ h => Json.noConfusion h) (fun _ h => Json.noConfusion h),
   C3_degradation.2.2 (Json.num 7)
      (fun _ h => Json.noConfusion h) (fun _ h => Json.noConfusion h)⟩

/-- C5 counterexample: for a record-list input, `extract_ui_elements`
returns the records unchanged, so an element with an empty `name` survives
into its output. -/
theorem C5_counterexample :
    extract_ui_elements (fun _ => [])
        (Json.arr [Json.obj [("type", Json.str "button"), ("name", Json.str "")]]) =
      [Json.obj [("type", Json.str "button"), ("name", Json.str "")]] ∧
    elemName (Json.obj [("type", Json.str "button"), ("name", Json.str "")]) = "" := by
  decide

/-- C5 (amended): every element the HTML input-extraction loop appends has a
non-empty name (id attribute, name attribute, or the generated
`input-<index>` placeholder), while the record-list branch passes its input
through unchanged and hence guarantees nothing about names there. -/
theorem C5_input_names :
    (∀ (nodes : List HtmlNode) (init : List Json) (e : Json),
        e ∈ inputsLoop nodes init → e ∉ init → elemName e ≠ "") ∧
    (∀ (parse : String → List HtmlNode) (xs : List Json),
        extract_ui_elements parse (.arr xs) = xs) := by
  constructor
  · intro nodes init e hmem hnin
    rcases inputsLoop_mem nodes init e hmem with h | ⟨inp, k, he⟩
    · exact absurd h hnin
    · subst he
      exact ne_empty_of_length_pos _ (inputElem_name_length inp k)
  · intro parse xs
    cases xs <;> rfl

/-- C5 witness: the theorem applied to a concrete bare `input` node. -/
theorem C5_input_names_witness :
    elemName (inputElem ⟨"input", none, none, none, [], ""⟩ 0) ≠ "" :=
  C5_input_names.1 [⟨"input", none, none, none, [], ""⟩] []
    (inputElem ⟨"input", none, none, none, [], ""⟩ 0) (by decide) (by decide)

/-- C4: `generate_local_test_case` always returns a string: when both input
files load, a successful body yields the header plus the report lines, and
any internal exception is caught and converted into the page-scoped error
string; when a file fails to load, the fixed load-error string results.
No path propagates an exception. -/
theorem C4_never_raises (parse : String → List HtmlNode)
    (scan_data test_plan : Option Json) (page : String) :
    (scan_data = none ∨ test_plan = none →
      generate_local_test_case parse scan_data test_plan page =
        analysisHeader ++ "Error: Failed to load test data\n") ∧
    (∀ sd tp, scan_data = some sd → test_plan = some tp →
      (∀ ls, reportBodyLines parse sd page = .ok ls →
        generate_local_test_case parse scan_data test_plan page =
          analysisHeader ++ linesToString ls) ∧
      (∀ e, reportBodyLines parse sd page = .error e →
        generate_local_test_case parse scan_data test_plan page =
          analysisHeader ++ ("Error generating report for " ++ page ++ ": " ++ e ++ "\n"))) := by
  constructor
  · intro h
    cases scan_data with
    | none => rfl
    | some sd =>
        cases test_plan with
        | none => rfl
        | some tp =>
            rcases h with h | h <;> exact absurd h (by simp)
  · intro sd tp hsd htp
    subst hsd
    subst htp
    constructor
    · intro ls hls
      simp only [generate_local_test_case, hls]
    · intro e he
      simp only [generate_local_test_case, he]

/-- The scan input of the C4 witness: page `P` carries network data whose
`entries` value is not iterable, so the report body raises internally. -/
def scanC4 : Json := .obj [("P", .obj [("network_requests", .obj [("entries", .num 5)])])]

/-- C4 witness: the theorem applied to a run whose body raises; the caught
exception becomes the embedded page-scoped error string. -/
theorem C4_never_raises_witness :
    generate_local_test_case (fun _ => []) (some scanC4) (some (.obj [])) "P" =
      analysisHeader ++ ("Error generating report for " ++ "P" ++ ": "
        ++ "TypeError: not iterable" ++ "\n") :=
  ((C4_never_raises (fun _ => []) (some scanC4) (some (.obj [])) "P").2 scanC4 (.obj [])
    rfl rfl).2 "TypeError: not iterable" rfl

/-- C6: the Classifier's split of retained network requests into API calls
(`/api/` in the lowercased URL) and static resources (the rest) is
exhaustive and disjoint: each request lands in exactly one bucket. -/
theorem C6_partition (l api_calls : List Json)
    (h : filterME isApiCall l = .ok api_calls) (r : Json) (hr : r ∈ l) :
    (r ∈ api_calls ∧ r ∉ staticResources l api_calls) ∨
    (r ∉ api_calls ∧ r ∈ staticResources l api_calls) := by
  obtain ⟨b, hb⟩ := filterME_ok_exists isApiCall l api_calls h r hr
  have hmem := filterME_mem_iff isApiCall l api_calls h
  cases b with
  | true =>
      left
      have hin : r ∈ api_calls := (hmem r).mpr ⟨hr, hb⟩
      refine ⟨hin, fun hst => ?_⟩
      have hdec := (List.mem_filter.mp hst).2
      exact (of_decide_eq_true hdec) hin
  | false =>
      right
      have hnin : r ∉ api_calls := by
        intro hin
        exact Bool.noConfusion (Except.ok.inj (((hmem r).mp hin).2.symm.trans hb))
      exact ⟨hnin, List.mem_filter.mpr ⟨hr, decide_eq_true hnin⟩⟩

/-- A retained API request as the Normalizer produces it. -/
def reqApi : Json := .obj [("url", .str "https://x/api/login"), ("method", .str "POST"),
  ("status", .num 200), ("type", .str "api")]

/-- A retained static-resource request as the Normalizer produces it. -/
def reqCss : Json := .obj [("url", .str "https://x/site.css"), ("method", .str "GET"),
  ("status", .num 200), ("type", .str "resource")]

/-- C6 witness: the partition theorem applied to a concrete two-request
list. -/
theorem C6_partition_witness :
    (reqApi ∈ [reqApi] ∧ reqApi ∉ staticResources [reqApi, reqCss] [reqApi]) ∨
    (reqApi ∉ [reqApi] ∧ reqApi ∈ staticResources [reqApi, reqCss] [reqApi]) :=
  C6_partition [reqApi, reqCss] [reqApi] rfl reqApi (by decide)

/-- A request record carrying a non-empty string URL (every record the
Normalizer retains has this shape). -/
def strTruthy : Json → Bool
  | .str s => !s.data.isEmpty
  | _ => false

def hasNonEmptyStrUrl : Json → Bool
  | .obj kvs => strTruthy (getKV kvs "url" (.str ""))
  | _ => false

theorem renderStaticLines_singleton (r : Json) (h : hasNonEmptyStrUrl r = true) :
    ∃ s, renderStaticLines r = .ok [s] := by
  cases r with
  | obj kvs =>
      simp only [hasNonEmptyStrUrl] at h
      cases hurl : getKV kvs "url" (.str "") with
      | str s =>
          rw [hurl] at h
          simp only [strTruthy, Bool.not_eq_true'] at h
          refine ⟨"- " ++ strTake (lastSlashComponent s) 50, ?_⟩
          simp only [renderStaticLines, hurl, h]
          rfl
      | null => rw [hurl] at h; cases h
      | bool b => rw [hurl] at h; cases h
      | num n => rw [hurl] at h; cases h
      | arr xs => rw [hurl] at h; cases h
      | obj kvs2 => rw [hurl] at h; cases h
  | null => cases h
  | bool b => cases h
  | num n => cases h
  | str s => cases h
  | arr xs => cases h

theorem mapME_flatten_length (f : Json → Except String (List String)) :
    ∀ (l : List Json) (out : List (List String)),
      mapME f l = .ok out → (∀ r ∈ l, ∃ s, f r = .ok [s]) →
      out.flatten.length = l.length := by
  intro l
  induction l with
  | nil => intro out h _; simp only [mapME] at h; cases h; rfl
  | cons a as ih =>
      intro out h hs
      simp only [mapME] at h
      cases hfa : f a with
      | error e => rw [hfa] at h; cases h
      | ok b =>
          rw [hfa] at h
          cases hrest : mapME f as with
          | error e => rw [hrest] at h; cases h
          | ok bs =>
              rw [hrest] at h
              cases h
              obtain ⟨s, hsa⟩ := hs a (List.mem_cons_self a as)
              rw [hfa] at hsa
              cases hsa
              simp [ih bs hrest (fun r hr => hs r (List.mem_cons_of_mem a hr))]

/-- C7: capping law of the assembled report.  Every UI category, API-call
list and user/app storage list with more than 10 items renders exactly 10
item lines followed by exactly one `... plus N more` line with the exact
overflow count N; the static-resource list does likewise with cap 5. -/
theorem C7_capping :
    (∀ (category : String) (elements : List Json) (lines : List String),
        10 < elements.length → renderCategory category elements = .ok lines →
        ∃ items, items.length = 10 ∧
          lines = [catHeaderLine category elements.length] ++ items
            ++ ["... plus " ++ toString (elements.length - 10) ++ " more"] ++ [""]) ∧
    (∀ (api_calls : List Json) (lines : List String),
        10 < api_calls.length → renderApiBlock api_calls = .ok lines →
        ∃ items, items.length = 10 ∧
          lines = ["API CALLS (" ++ toString api_calls.length ++ "):"] ++ items
            ++ ["... plus " ++ toString (api_calls.length - 10) ++ " more"]) ∧
    (∀ (statics : List Json) (lines : List String),
        5 < statics.length → (∀ r ∈ statics, hasNonEmptyStrUrl r = true) →
        renderStaticBlock statics = .ok lines →
        ∃ items, items.length = 5 ∧
          lines = ["", "STATIC RESOURCES (" ++ toString statics.length ++ "):"] ++ items
            ++ ["... plus " ++ toString (statics.length - 5) ++ " more"]) ∧
    (∀ (items0 : List Json) (lines : List String),
        10 < items0.length → renderCappedStorage items0 = .ok lines →
        ∃ ls, ls.length = 10 ∧
          lines = ls ++ ["... plus " ++ toString (items0.length - 10) ++ " more"]) := by
  refine ⟨?_, ?_, ?_, ?_⟩
  · intro category elements lines h10 hR
    cases elements with
    | nil => simp at h10
    | cons a as =>
        simp only [renderCategory, List.isEmpty_cons, Bool.false_eq_true, if_false] at hR
        cases hm : mapME renderElemLine ((a :: as).take 10) with
        | error e => rw [hm] at hR; cases hR
        | ok items =>
            rw [hm] at hR
            rw [if_pos h10] at hR
            cases hR
            refine ⟨items, ?_, rfl⟩
            rw [mapME_ok_length _ _ _ hm, List.length_take]
            exact Nat.min_eq_left (Nat.le_of_lt h10)
  · intro api_calls lines h10 hR
    simp only [renderApiBlock] at hR
    cases hm : mapME renderApiLine (api_calls.take 10) with
    | error e => rw [hm] at hR; cases hR
    | ok items =>
        rw [hm] at hR
        rw [if_pos h10] at hR
        cases hR
        refine ⟨items, ?_, rfl⟩
        rw [mapME_ok_length _ _ _ hm, List.length_take]
        exact Nat.min_eq_left (Nat.le_of_lt h10)
  · intro statics lines h5 hurls hR
    simp only [renderStaticBlock] at hR
    cases hm : mapME renderStaticLines (statics.take 5) with
    | error e => rw [hm] at hR; cases hR
    | ok lss =>
        rw [hm] at hR
        rw [if_pos h5] at hR
        cases hR
        refine ⟨lss.flatten, ?_, rfl⟩
        rw [mapME_flatten_length _ _ _ hm
          (fun r hr => renderStaticLines_singleton r (hurls r (List.mem_of_mem_take hr)))]
        rw [List.length_take]
        exact Nat.min_eq_left (Nat.le_of_lt h5)
  · intro items0 lines h10 hR
    simp only [renderCappedStorage] at hR
    cases hm : mapME renderStorageLine (items0.take 10) with
    | error e => rw [hm] at hR; cases hR
    | ok ls =>
        rw [hm] at hR
        rw [if_pos h10] at hR
        cases hR
        refine ⟨ls, ?_, rfl⟩
        rw [mapME_ok_length _ _ _ hm, List.length_take]
        exact Nat.min_eq_left (Nat.le_of_lt h10)

def btn15 : List Json :=
  List.replicate 15 (Json.obj [("type", Json.str "button"), ("name", Json.str "B")])

def api15 : List Json := List.replicate 15 reqApi

def css6 : List Json := List.replicate 6 reqCss

def sto15 : List Json :=
  List.replicate 15 (Json.obj [("key", Json.str "theme"), ("value", Json.str "dark"),
    ("type", Json.str "storage")])

/-- C7 witness: the capping theorem applied to concrete overflowing lists —
in particular 15 button elements render 10 entries plus `... plus 5 more`. -/
theorem C7_capping_witness :
    (∃ items, items.length = 10 ∧
      (["BUTTONS (15):", "- B", "- B", "- B", "- B", "- B", "- B", "- B", "- B", "- B",
        "- B", "... plus 5 more", ""] : List String) =
        [catHeaderLine "button" btn15.length] ++ items
          ++ ["... plus " ++ toString (btn15.length - 10) ++ " more"] ++ [""]) ∧
    (∃ items, items.length = 10 ∧
      (["API CALLS (15):", "- POST https://x/api/login (200)", "- POST https://x/api/login (200)",
        "- POST https://x/api/login (200)", "- POST https://x/api/login (200)",
        "- POST https://x/api/login (200)", "- POST https://x/api/login (200)",
        "- POST https://x/api/login (200)", "- POST https://x/api/login (200)",
        "- POST https://x/api/login (200)", "- POST https://x/api/login (200)",
        "... plus 5 more"] : List String) =
        ["API CALLS (" ++ toString api15.length ++ "):"] ++ items
          ++ ["... plus " ++ toString (api15.length - 10) ++ " more"]) ∧
    (∃ items, items.length = 5 ∧
      (["", "STATIC RESOURCES (6):", "- site.css", "- site.css", "- site.css", "- site.css",
        "- site.css", "... plus 1 more"] : List String) =
        ["", "STATIC RESOURCES (" ++ toString css6.length ++ "):"] ++ items
          ++ ["... plus " ++ toString (css6.length - 5) ++ " more"]) ∧
    (∃ ls, ls.length = 10 ∧
      (["- theme: dark", "- theme: dark", "- theme: dark", "- theme: dark", "- theme: dark",
        "- theme: dark", "- theme: dark", "- theme: dark", "- theme: dark", "- theme: dark",
        "... plus 5 more"] : List String) =
        ls ++ ["... plus " ++ toString (sto15.length - 10) ++ " more"]) :=
  ⟨C7_capping.1 "button" btn15 _ (by decide) rfl,
   C7_capping.2.1 api15 _ (by decide) rfl,
   C7_capping.2.2.1 css6 _ (by decide) (fun r hr => by
      rw [show css6 = List.replicate 6 reqCss from rfl] at hr
      rw [List.eq_of_mem_replicate hr]
      decide) rfl,
   C7_capping.2.2.2 sto15 _ (by decide) rfl⟩

/-- The fixed storage-section lines produced when every storage item is
filtered as sensitive. -/
def allFilteredLines : List String :=
  ["--- LOCAL STORAGE ---", "", "USER SESSION DATA:", "",
   "APPLICATION PREFERENCES:", "", "FILTERED ITEMS (sensitive data omitted)"]

theorem storageUserApp_empty_of_sensitive :
    ∀ (items : List Json),
      (∀ kvs, Json.obj kvs ∈ items → isSensitiveKey (itemLowKey kvs) = true) →
      storageUserApp items = ([], []) := by
  intro items
  induction items with
  | nil => intro _; rfl
  | cons it rest ih =>
      intro h
      have hrest := ih (fun kvs hm => h kvs (List.mem_cons_of_mem _ hm))
      cases it with
      | obj kvs =>
          have hsens := h kvs (List.mem_cons_self _ _)
          simp only [storageUserApp, hsens, if_true]
          exact hrest
      | null => simpa only [storageUserApp] using hrest
      | bool b => simpa only [storageUserApp] using hrest
      | num n => simpa only [storageUserApp] using hrest
      | str s => simpa only [storageUserApp] using hrest
      | arr xs => simpa only [storageUserApp] using hrest

/-- C10: when the Normalizer hands the report a non-empty storage list whose
every record key matches the sensitive set, the report still renders the
USER SESSION DATA and APPLICATION PREFERENCES headers with zero item lines
plus the FILTERED ITEMS note, and not the no-storage fallback line. -/
theorem C10_all_filtered (items : List Json) (hne : items ≠ [])
    (hs : ∀ kvs, Json.obj kvs ∈ items → isSensitiveKey (itemLowKey kvs) = true) :
    storageSectionFull items = .ok allFilteredLines ∧
    "USER SESSION DATA:" ∈ allFilteredLines ∧
    "APPLICATION PREFERENCES:" ∈ allFilteredLines ∧
    "FILTERED ITEMS (sensitive data omitted)" ∈ allFilteredLines ∧
    "No local storage data captured" ∉ allFilteredLines ∧
    allFilteredLines.all (fun l => !(pyStartsWith l "- ")) = true := by
  refine ⟨?_, by decide, by decide, by decide, by decide, by decide⟩
  have hz := storageUserApp_empty_of_sensitive items hs
  cases items with
  | nil => exact absurd rfl hne
  | cons a as =>
      simp only [storageSectionFull, List.isEmpty_cons, Bool.false_eq_true, if_false]
      simp only [storageSection, hz]
      rfl

/-- A storage mapping whose every surviving item has a sensitive key. -/
def sensStorage : Json := .obj [("password", .str "x"), ("authKey", .str "y")]

/-- C10 witness: the theorem applied to the Normalizer output of a concrete
all-sensitive storage mapping. -/
theorem C10_all_filtered_witness :
    storageSectionFull (extract_local_storage sensStorage) = .ok allFilteredLines ∧
    "USER SESSION DATA:" ∈ allFilteredLines ∧
    "APPLICATION PREFERENCES:" ∈ allFilteredLines ∧
    "FILTERED ITEMS (sensitive data omitted)" ∈ allFilteredLines ∧
    "No local storage data captured" ∉ allFilteredLines ∧
    allFilteredLines.all (fun l => !(pyStartsWith l "- ")) = true :=
  C10_all_filtered (extract_local_storage sensStorage) (by decide) (by
    intro kvs hm
    rw [show extract_local_storage sensStorage =
      [.obj [("key", .str "password"), ("value", .str "x"), ("type", .str "storage")],
       .obj [("key", .str "authKey"), ("value", .str "y"), ("type", .str "storage")]]
      from rfl] at hm
    rcases List.mem_cons.mp hm with he | hm2
    · injection he with h2
      subst h2
      decide
    · rcases List.mem_cons.mp hm2 with he | hm3
      · injection he with h2
        subst h2
        decide
      · cases hm3)

end TestGen
